import Mathlib

/-
Shallow embedding of src/src/database/useDatabaseRef.ts.

The function under study is _useDatabaseRef. Its synchronous body is modelled
by `setup`; the inner closure bindDatabaseRef by `bindDatabaseRef`; the
asynchronous catch/finally handlers attached to each bind promise by `settle`;
a firing of the watcher installed on a reactive reference by `refChange`; and
the stop closure by `stop`.

External collaborators that live outside src/ (getInitialValue from
../ssr/initialState, bindAsArray and bindAsObject from ./bind,
globalDatabaseOptions, useFirebaseApp, isSSR, getCurrentScope,
getCurrentInstance) are modelled as parameters of an environment record `Env`:
the code only calls them and threads their results through. Promises are
modelled by numeric identities: each call to bindDatabaseRef creates a fresh
promise id and stores it in the promise ref, matching the identity comparison
promise.value === newPromise performed by the handlers in the source.

The model covers the production build: the branch guarded by
process.env.NODE_ENV !== 'production' (a dev-only diagnostic delegating to the
external checkWrittenTarget) is dead code there and is excluded, as the spec
excludes dev-mode warnings from scope.
-/

namespace VuefireDB

/-- Values held by the data ref, abstracted to what the source inspects:
the strict comparison with undefined (line 74) and Array.isArray (line 98). -/
inductive JSValue where
  | undef
  | null
  | arr
  | obj
  | prim (n : Nat)
  deriving Repr, DecidableEq

/-- Array.isArray on the modelled values. -/
def JSValue.isArray : JSValue → Bool
  | .arr => true
  | _ => false

/-- Identity of a reactive ref cell. The data ref is either the caller
supplied options.target or a fresh ref created at line 47; error, pending and
promise are the refs created at lines 76 to 79. -/
inductive RefId where
  | callerTarget (id : Nat)
  | freshData
  | errorRef
  | pendingRef
  | promiseRef
  deriving Repr, DecidableEq

/-- The reference argument: a _MaybeRef of a nullable database reference or
query. Database references are abstracted to numeric identities; `reactive`
carries the current unwrapped value of a Vue ref, `plain` a raw value. -/
inductive RefArg where
  | plain (v : Option Nat)
  | reactive (v : Option Nat)
  deriving Repr, DecidableEq

/-- unref: the current unwrapped value. -/
def RefArg.unrefArg : RefArg → Option Nat
  | .plain v => v
  | .reactive v => v

/-- isRef test (line 128). -/
def RefArg.isReactive : RefArg → Bool
  | .plain _ => false
  | .reactive _ => true

/-- Merged options as seen by the rest of the function after Object.assign
(line 45), restricted to the fields the source reads: once (line 62), reset
(line 147) and ssrKey (line 68). -/
structure DBOptions where
  once : Bool
  reset : Bool
  ssrKey : Option String
  deriving Repr, DecidableEq

/-- The defaults provided by the external globalDatabaseOptions. -/
structure GlobalOptions where
  once : Bool
  reset : Bool
  deriving Repr, DecidableEq

/-- A caller supplied target ref: its identity and the value it holds when
_useDatabaseRef is entered (its prior value, read at line 69). -/
structure Target where
  id : Nat
  priorValue : JSValue
  deriving Repr, DecidableEq

/-- Caller options: each field either present (overriding the global default
under Object.assign) or absent. -/
structure LocalOptions where
  target : Option Target
  once : Option Bool
  reset : Option Bool
  ssrKey : Option String
  deriving Repr, DecidableEq

/-- Object.assign({}, globalDatabaseOptions, localOptions): a local field,
when present, overrides the global default. -/
def mergeOptions (g : GlobalOptions) (lo : LocalOptions) : DBOptions :=
  { once := lo.once.getD g.once
    reset := lo.reset.getD g.reset
    ssrKey := lo.ssrKey }

/-- One invocation of the external binder (bindAsArray or bindAsObject,
lines 99 to 107): which of the two was chosen, the data ref passed, the
unwrapped reference passed, the promise whose resolve and reject were passed,
and the options object passed. -/
structure BinderCall where
  asArray : Bool
  dataRef : RefId
  referenceValue : Nat
  promiseId : Nat
  options : DBOptions
  deriving Repr, DecidableEq

/-- The unbind closure variable: noop (line 88) or the unsubscribe handle
returned by the binder, abstracted to a numeric identity. -/
inductive Unbind where
  | noop
  | handle (id : Nat)
  deriving Repr, DecidableEq

/-- Environment of a call: results of the external collaborators. The binder
functions return the identity of the unsubscribe handle they produce. -/
structure Env where
  ssr : Bool
  hasScope : Bool
  hasInstance : Bool
  firebaseApp : Nat
  globalOptions : GlobalOptions
  getInitialValue : Option Nat → Option String → JSValue → Nat → JSValue
  bindAsArray : BinderCall → Nat
  bindAsObject : BinderCall → Nat

/-- The mutable state of one _useDatabaseRef call: the ref cells (data,
error, pending, promise) and the closure variables (unbind,
shouldStartAsPending, removePendingPromise), plus the current value of the
reference argument and a log of binder invocations. -/
structure BindState where
  refArg : RefArg
  options : DBOptions
  dataRefId : RefId
  data : JSValue
  error : Option JSValue
  pending : Bool
  promiseId : Nat
  nextPromiseId : Nat
  shouldStartAsPending : Bool
  unbind : Unbind
  watcherInstalled : Bool
  pendingRemover : Option (Nat × Nat)
  binderCalls : List BinderCall
  deriving Repr, DecidableEq

/-- What one execution of bindDatabaseRef did: the promise it created,
whether the executor resolved it to null at once (line 90), the binder call
it made if any, and the value it wrote to pending.value if any (line 93). -/
structure BindRecord where
  promiseId : Nat
  resolvedNullImmediately : Bool
  binderInvoked : Option BinderCall
  pendingAssigned : Option Bool
  deriving Repr, DecidableEq

/-- The binder call bindDatabaseRef makes from state s for unwrapped
reference r: data.value decides array versus object (line 98), the data ref,
the reference, the resolve and reject of the promise being created, and the
merged options are passed. -/
def binderCallOf (s : BindState) (r : Nat) : BinderCall :=
  { asArray := s.data.isArray
    dataRef := s.dataRefId
    referenceValue := r
    promiseId := s.nextPromiseId
    options := s.options }

/-- The body of bindDatabaseRef (lines 83 to 125). It unrefs the reference,
creates a new promise and stores it in the promise ref. With a null
reference the executor sets unbind to noop and resolves to null at once.
Otherwise it assigns shouldStartAsPending to pending.value, sets
shouldStartAsPending to true, and calls bindAsArray when data.value is an
array and bindAsObject otherwise, keeping the returned unsubscribe handle. -/
def bindDatabaseRef (env : Env) (s : BindState) : BindState × BindRecord :=
  let pid := s.nextPromiseId
  match s.refArg.unrefArg with
  | none =>
      ({ s with unbind := Unbind.noop, promiseId := pid, nextPromiseId := pid + 1 },
       { promiseId := pid, resolvedNullImmediately := true
         binderInvoked := none, pendingAssigned := none })
  | some r =>
      let call := binderCallOf s r
      let h := if s.data.isArray then env.bindAsArray call else env.bindAsObject call
      ({ s with pending := s.shouldStartAsPending
                shouldStartAsPending := true
                unbind := Unbind.handle h
                promiseId := pid, nextPromiseId := pid + 1
                binderCalls := s.binderCalls ++ [call] },
       { promiseId := pid, resolvedNullImmediately := false
         binderInvoked := some call
         pendingAssigned := some s.shouldStartAsPending })

/-- How a bind promise settles: the binder (or the executor) invoked resolve
with a value, or reject with a reason. -/
inductive SettleKind where
  | resolve (v : JSValue)
  | reject (reason : JSValue)
  deriving Repr, DecidableEq

/-- Observable outcome of the chained promise stored in the promise ref. -/
inductive Outcome where
  | fulfilled (v : JSValue)
  | rejected (reason : JSValue)
  deriving Repr, DecidableEq

/-- The catch and finally handlers (lines 110 to 121) run when promise pid
settles. Both first compare the promise they belong to with the promise
currently stored in the promise ref. The catch handler stores the reason in
error.value and re-raises it; the finally handler clears pending.value. -/
def settle (s : BindState) (pid : Nat) (k : SettleKind) : BindState × Outcome :=
  match k with
  | .resolve v =>
      ({ s with pending := if s.promiseId = pid then false else s.pending },
       Outcome.fulfilled v)
  | .reject reason =>
      ({ s with error := if s.promiseId = pid then some reason else s.error
                pending := if s.promiseId = pid then false else s.pending },
       Outcome.rejected reason)

/-- A change of the reference. When the reference is reactive a watcher was
installed (line 129) whose callback is bindDatabaseRef; a plain reference has
no watcher, so nothing happens. -/
def refChange (env : Env) (s : BindState) (v : Option Nat) : BindState × Option BindRecord :=
  if s.watcherInstalled then
    let p := bindDatabaseRef env { s with refArg := RefArg.reactive v }
    (p.1, some p.2)
  else (s, none)

/-- The object returned at lines 155 to 162: the data ref itself, augmented
by Object.defineProperties with exactly the accessors data, error, pending,
promise and stop. -/
structure FullResult where
  self : RefId
  dataAcc : RefId
  errorAcc : RefId
  pendingAcc : RefId
  promiseAcc : RefId
  hasStop : Bool
  deriving Repr, DecidableEq

/-- Object.defineProperties(data, ...): the returned object is the data ref;
each accessor yields the corresponding ref. -/
def makeResult (dataRefId : RefId) : FullResult :=
  { self := dataRefId
    dataAcc := dataRefId
    errorAcc := RefId.errorRef
    pendingAcc := RefId.pendingRef
    promiseAcc := RefId.promiseRef
    hasStop := true }

/-- Everything the synchronous body of _useDatabaseRef produced: the state
after the first bind, the record of that bind, the hydrated value written to
data.value at line 66, the initial unwrapped reference (line 46), which
lifecycle hooks were registered, and the returned object. -/
structure SetupOut where
  state : BindState
  firstBind : BindRecord
  hydrated : JSValue
  initialSourceValue : Option Nat
  scopeDisposeRegistered : Bool
  serverPrefetchRegistered : Bool
  result : FullResult
  deriving Repr, DecidableEq

/-- The data ref (line 47): options.target when supplied, a fresh ref
otherwise. -/
def dataRefIdOf (lo : LocalOptions) : RefId :=
  match lo.target with
  | some t => RefId.callerTarget t.id
  | none => RefId.freshData

/-- The value held by the data ref on entry: the prior value of a caller
supplied target, undefined for a fresh ref. -/
def priorValueOf (lo : LocalOptions) : JSValue :=
  match lo.target with
  | some t => t.priorValue
  | none => JSValue.undef

/-- Merged options after the SSR override (lines 45 and 61 to 63): during
SSR, options.once is forced to true. -/
def mergedOptions (env : Env) (lo : LocalOptions) : DBOptions :=
  let options0 := mergeOptions env.globalOptions lo
  if env.ssr then { options0 with once := true } else options0

/-- The value getInitialValue returns at line 66: applied to the initial
unwrapped reference, the merged ssrKey option, the prior value of the data
ref, and the firebase app. -/
def hydratedOf (env : Env) (reference : RefArg) (lo : LocalOptions) : JSValue :=
  env.getInitialValue reference.unrefArg (mergedOptions env lo).ssrKey
    (priorValueOf lo) env.firebaseApp

/-- The state right before the first bindDatabaseRef call (lines 44 to 81):
data.value hydrated, error and pending refs fresh, shouldStartAsPending set
when data.value is still undefined (line 74), a watcher installed exactly
when the reference is a ref (lines 127 to 130). -/
def initialBindState (env : Env) (reference : RefArg) (lo : LocalOptions) : BindState :=
  { refArg := reference
    options := mergedOptions env lo
    dataRefId := dataRefIdOf lo
    data := hydratedOf env reference lo
    error := none
    pending := false
    promiseId := 0
    nextPromiseId := 0
    shouldStartAsPending := decide (hydratedOf env reference lo = JSValue.undef)
    unbind := Unbind.noop
    watcherInstalled := reference.isReactive
    pendingRemover := none
    binderCalls := [] }

/-- The body of _useDatabaseRef after the per-call values above have been
computed: the first bind runs (line 131); the first promise is registered
with addPendingPromise when the initial unwrapped reference is non null
(lines 133 to 136); onScopeDispose(stop) is registered inside a scope, and
onServerPrefetch additionally inside a component instance (lines 138 to
145); the augmented data ref is returned (lines 155 to 162). -/
def setup (env : Env) (reference : RefArg) (lo : LocalOptions) : SetupOut :=
  let initialSourceValue := reference.unrefArg
  let p := bindDatabaseRef env (initialBindState env reference lo)
  let s2 : BindState :=
    match initialSourceValue with
    | some r => { p.1 with pendingRemover := some (p.1.promiseId, r) }
    | none => p.1
  { state := s2
    firstBind := p.2
    hydrated := hydratedOf env reference lo
    initialSourceValue := initialSourceValue
    scopeDisposeRegistered := env.hasScope
    serverPrefetchRegistered := env.hasScope && env.hasInstance
    result := makeResult (dataRefIdOf lo) }

/-- Effects of one call to the stop closure (lines 147 to 151): stopWatcher
is invoked (a noop unless a watcher was installed), removePendingPromise is
invoked (a noop unless a pending promise was registered), and the current
unbind handle is called with the reset argument, defaulting to
options.reset. -/
structure StopEffects where
  watcherStopped : Bool
  pendingPromiseRemoved : Option (Nat × Nat)
  unbindCalled : Unbind
  resetArg : Bool
  deriving Repr, DecidableEq

/-- The stop closure applied in state s with an optional explicit reset. -/
def stop (s : BindState) (reset : Option Bool) : StopEffects :=
  { watcherStopped := s.watcherInstalled
    pendingPromiseRemoved := s.pendingRemover
    unbindCalled := s.unbind
    resetArg := reset.getD s.options.reset }

/-- What the onServerPrefetch callback (line 143) awaits when it runs in
state s: the promise currently stored in the promise ref, when the callback
was registered at all. -/
def serverPrefetchAwait (registered : Bool) (s : BindState) : Option Nat :=
  if registered then some s.promiseId else none

/-- Reading a ref cell of the call in state s. -/
inductive RefVal where
  | dataV (v : JSValue)
  | errorV (v : Option JSValue)
  | pendingV (b : Bool)
  | promiseV (pid : Nat)
  deriving Repr, DecidableEq

/-- Dereference a ref identity against the state of the call. -/
def readRef (s : BindState) (r : RefId) : Option RefVal :=
  if r = s.dataRefId then some (RefVal.dataV s.data)
  else
    match r with
    | RefId.errorRef => some (RefVal.errorV s.error)
    | RefId.pendingRef => some (RefVal.pendingV s.pending)
    | RefId.promiseRef => some (RefVal.promiseV s.promiseId)
    | _ => none

/-! Helper lemmas shared by the claim theorems. -/

/-- bindDatabaseRef never touches the reference, the options, the data ref
or its value, the error ref, the watcher or the registered pending promise;
it always stores the freshly created promise in the promise ref. -/
theorem bindDatabaseRef_frame (env : Env) (s : BindState) :
    (bindDatabaseRef env s).1.refArg = s.refArg ∧
    (bindDatabaseRef env s).1.options = s.options ∧
    (bindDatabaseRef env s).1.dataRefId = s.dataRefId ∧
    (bindDatabaseRef env s).1.data = s.data ∧
    (bindDatabaseRef env s).1.error = s.error ∧
    (bindDatabaseRef env s).1.watcherInstalled = s.watcherInstalled ∧
    (bindDatabaseRef env s).1.pendingRemover = s.pendingRemover ∧
    (bindDatabaseRef env s).1.promiseId = s.nextPromiseId ∧
    (bindDatabaseRef env s).1.nextPromiseId = s.nextPromiseId + 1 := by
  cases h : s.refArg.unrefArg <;>
    simp [bindDatabaseRef, binderCallOf, h]

/-- The state produced by setup, spelled out. -/
theorem setup_state_eq (env : Env) (reference : RefArg) (lo : LocalOptions) :
    (setup env reference lo).state =
      (match reference.unrefArg with
       | some r =>
           { (bindDatabaseRef env (initialBindState env reference lo)).1 with
               pendingRemover :=
                 some ((bindDatabaseRef env (initialBindState env reference lo)).1.promiseId, r) }
       | none => (bindDatabaseRef env (initialBindState env reference lo)).1) := rfl

theorem setup_state_dataRefId (env : Env) (reference : RefArg) (lo : LocalOptions) :
    (setup env reference lo).state.dataRefId = dataRefIdOf lo := by
  have hf := (bindDatabaseRef_frame env (initialBindState env reference lo)).2.2.1
  rw [setup_state_eq]
  cases h : reference.unrefArg <;> simp [h] <;> exact hf.trans rfl

theorem setup_state_data (env : Env) (reference : RefArg) (lo : LocalOptions) :
    (setup env reference lo).state.data = hydratedOf env reference lo := by
  have hf := (bindDatabaseRef_frame env (initialBindState env reference lo)).2.2.2.1
  rw [setup_state_eq]
  cases h : reference.unrefArg <;> simp [h] <;> exact hf.trans rfl

theorem setup_state_options (env : Env) (reference : RefArg) (lo : LocalOptions) :
    (setup env reference lo).state.options = mergedOptions env lo := by
  have hf := (bindDatabaseRef_frame env (initialBindState env reference lo)).2.1
  rw [setup_state_eq]
  cases h : reference.unrefArg <;> simp [h] <;> exact hf.trans rfl

theorem setup_state_watcher (env : Env) (reference : RefArg) (lo : LocalOptions) :
    (setup env reference lo).state.watcherInstalled = reference.isReactive := by
  have hf := (bindDatabaseRef_frame env (initialBindState env reference lo)).2.2.2.2.2.1
  rw [setup_state_eq]
  cases h : reference.unrefArg <;> simp [h] <;> exact hf.trans rfl

theorem dataRefIdOf_ne_errorRef (lo : LocalOptions) : dataRefIdOf lo ≠ RefId.errorRef := by
  cases h : lo.target <;> simp [dataRefIdOf, h]

theorem dataRefIdOf_ne_pendingRef (lo : LocalOptions) : dataRefIdOf lo ≠ RefId.pendingRef := by
  cases h : lo.target <;> simp [dataRefIdOf, h]

theorem dataRefIdOf_ne_promiseRef (lo : LocalOptions) : dataRefIdOf lo ≠ RefId.promiseRef := by
  cases h : lo.target <;> simp [dataRefIdOf, h]

/-! The claim theorems. -/

/-- C1: for every call, the returned value is the data ref augmented with
exactly the accessors data, error, pending, promise and the stop function;
the data accessor yields the data ref (the caller target when one was
supplied), the error accessor the error ref, the pending accessor the
pending ref and the promise accessor the current bind promise ref. -/
theorem c1_result_is_augmented_data_ref (env : Env) (reference : RefArg) (lo : LocalOptions) :
    (setup env reference lo).result = makeResult (setup env reference lo).state.dataRefId ∧
    (setup env reference lo).result.self = (setup env reference lo).result.dataAcc ∧
    readRef (setup env reference lo).state (setup env reference lo).result.dataAcc =
      some (RefVal.dataV (setup env reference lo).state.data) ∧
    readRef (setup env reference lo).state (setup env reference lo).result.errorAcc =
      some (RefVal.errorV (setup env reference lo).state.error) ∧
    readRef (setup env reference lo).state (setup env reference lo).result.pendingAcc =
      some (RefVal.pendingV (setup env reference lo).state.pending) ∧
    readRef (setup env reference lo).state (setup env reference lo).result.promiseAcc =
      some (RefVal.promiseV (setup env reference lo).state.promiseId) ∧
    (setup env reference lo).result.hasStop = true := by
  have hid := setup_state_dataRefId env reference lo
  have hres : (setup env reference lo).result = makeResult (dataRefIdOf lo) := rfl
  refine ⟨by rw [hres, hid], rfl, ?_, ?_, ?_, ?_, rfl⟩
  · rw [hres]
    simp [makeResult, readRef, hid]
  · rw [hres]
    simp [makeResult, readRef, hid, (dataRefIdOf_ne_errorRef lo).symm]
  · rw [hres]
    simp [makeResult, readRef, hid, (dataRefIdOf_ne_pendingRef lo).symm]
  · rw [hres]
    simp [makeResult, readRef, hid, (dataRefIdOf_ne_promiseRef lo).symm]

/-- C3: for every call, data.value is hydrated before any binding: it is set
to getInitialValue applied to the initial unwrapped reference, the merged
ssrKey option, the prior value of the data ref (the value of a caller
supplied target, undefined for a fresh ref), and the firebase app; and the
state still holds that value when setup returns. -/
theorem c3_hydration_from_initial_state (env : Env) (reference : RefArg) (lo : LocalOptions) :
    (setup env reference lo).hydrated =
      env.getInitialValue reference.unrefArg
        (mergeOptions env.globalOptions lo).ssrKey (priorValueOf lo) env.firebaseApp ∧
    (initialBindState env reference lo).data = (setup env reference lo).hydrated ∧
    (setup env reference lo).state.data = (setup env reference lo).hydrated := by
  refine ⟨?_, rfl, setup_state_data env reference lo⟩
  show hydratedOf env reference lo = _
  unfold hydratedOf mergedOptions
  cases h : env.ssr <;> simp [h]

/-- C2: the pending flag tracks only the current promise. When the promise
stored in the promise ref settles, pending.value becomes false; when it
rejects, error.value is set to the rejection reason and the rejection is
propagated by the chained promise; a promise that is no longer the one
stored in the promise ref modifies neither pending.value nor error.value
when it settles. -/
theorem c2_pending_tracks_current_promise (s : BindState) (pid : Nat) (k : SettleKind) :
    (s.promiseId = pid → (settle s pid k).1.pending = false) ∧
    (∀ reason, s.promiseId = pid → k = SettleKind.reject reason →
        (settle s pid k).1.error = some reason ∧
        (settle s pid k).2 = Outcome.rejected reason) ∧
    (s.promiseId ≠ pid →
        (settle s pid k).1.pending = s.pending ∧ (settle s pid k).1.error = s.error) := by
  refine ⟨?_, ?_, ?_⟩
  · intro h
    cases k <;> simp [settle, h]
  · rintro reason h rfl
    simp [settle, h]
  · intro h
    cases k <;> simp [settle, h]

/-- C5: onScopeDispose(stop) is registered exactly when the call happens
inside an active reactivity scope; the stop closure, with reset defaulting
to options.reset, stops the reference watcher, removes the registered
pending promise and calls the unsubscribe handle of the binder with the
reset option. -/
theorem c5_scope_disposal (env : Env) (reference : RefArg) (lo : LocalOptions) (s : BindState) :
    (setup env reference lo).scopeDisposeRegistered = env.hasScope ∧
    stop s none =
      { watcherStopped := s.watcherInstalled
        pendingPromiseRemoved := s.pendingRemover
        unbindCalled := s.unbind
        resetArg := s.options.reset } ∧
    (∀ r : Bool, (stop s (some r)).resetArg = r) :=
  ⟨rfl, rfl, fun _ => rfl⟩

/-- C6: every bind with a non null reference delegates to the external
binder: bindAsArray when the current data value is an array, bindAsObject
otherwise, passing the data ref, the reference, the resolve and reject of
the promise just created, and the merged options; the returned unsubscribe
handle is stored as unbind. -/
theorem c6_binder_delegation (env : Env) (s : BindState) (r : Nat)
    (h : s.refArg.unrefArg = some r) :
    (bindDatabaseRef env s).2.binderInvoked = some (binderCallOf s r) ∧
    (binderCallOf s r).asArray = s.data.isArray ∧
    (binderCallOf s r).dataRef = s.dataRefId ∧
    (binderCallOf s r).referenceValue = r ∧
    (binderCallOf s r).promiseId = (bindDatabaseRef env s).1.promiseId ∧
    (binderCallOf s r).options = s.options ∧
    (bindDatabaseRef env s).1.binderCalls = s.binderCalls ++ [binderCallOf s r] ∧
    (bindDatabaseRef env s).1.unbind =
      Unbind.handle (if s.data.isArray then env.bindAsArray (binderCallOf s r)
                     else env.bindAsObject (binderCallOf s r)) := by
  simp [bindDatabaseRef, h, binderCallOf]

/-- C8: a bind whose reference unwraps to null resolves its promise to null
at once, sets unbind to a noop, invokes no binder and never assigns
pending.value. -/
theorem c8_null_reference_bind (env : Env) (s : BindState)
    (h : s.refArg.unrefArg = none) :
    (bindDatabaseRef env s).2.resolvedNullImmediately = true ∧
    (bindDatabaseRef env s).2.binderInvoked = none ∧
    (bindDatabaseRef env s).2.pendingAssigned = none ∧
    (bindDatabaseRef env s).1.unbind = Unbind.noop ∧
    (bindDatabaseRef env s).1.pending = s.pending ∧
    (bindDatabaseRef env s).1.binderCalls = s.binderCalls := by
  simp [bindDatabaseRef, h]

/-! Concrete inputs for the witnesses. -/

/-- A concrete environment. -/
def envEx : Env :=
  { ssr := false
    hasScope := true
    hasInstance := true
    firebaseApp := 0
    globalOptions := { once := false, reset := false }
    getInitialValue := fun _ _ v _ => v
    bindAsArray := fun _ => 10
    bindAsObject := fun _ => 20 }

/-- The concrete environment during server side rendering. -/
def envSSR : Env := { envEx with ssr := true }

/-- Caller options with every field absent. -/
def loEx : LocalOptions := { target := none, once := none, reset := none, ssrKey := none }

/-- A concrete mid-lifecycle state. -/
def stateEx : BindState :=
  { refArg := RefArg.plain (some 5)
    options := { once := false, reset := false, ssrKey := none }
    dataRefId := RefId.freshData
    data := JSValue.null
    error := none
    pending := true
    promiseId := 0
    nextPromiseId := 1
    shouldStartAsPending := true
    unbind := Unbind.noop
    watcherInstalled := true
    pendingRemover := none
    binderCalls := [] }

/-- The concrete state with a null reference and no watcher. -/
def stateNullRef : BindState :=
  { stateEx with refArg := RefArg.plain none, watcherInstalled := false }

theorem c2_witness :
    (settle stateEx 0 (SettleKind.reject (JSValue.prim 7))).1.error =
      some (JSValue.prim 7) ∧
    (settle stateEx 0 (SettleKind.reject (JSValue.prim 7))).1.pending = false ∧
    (settle stateEx 1 (SettleKind.reject (JSValue.prim 7))).1.pending = true ∧
    (settle stateEx 1 (SettleKind.reject (JSValue.prim 7))).1.error = none := by
  refine ⟨?_, ?_, ?_, ?_⟩
  · exact ((c2_pending_tracks_current_promise stateEx 0 _).2.1 (JSValue.prim 7) rfl rfl).1
  · exact (c2_pending_tracks_current_promise stateEx 0
      (SettleKind.reject (JSValue.prim 7))).1 rfl
  · exact ((c2_pending_tracks_current_promise stateEx 1
      (SettleKind.reject (JSValue.prim 7))).2.2 (by decide)).1.trans rfl
  · exact ((c2_pending_tracks_current_promise stateEx 1
      (SettleKind.reject (JSValue.prim 7))).2.2 (by decide)).2.trans rfl

theorem c6_witness :
    (bindDatabaseRef envEx stateEx).2.binderInvoked = some (binderCallOf stateEx 5) ∧
    (bindDatabaseRef envEx stateEx).1.unbind = Unbind.handle 20 := by
  refine ⟨(c6_binder_delegation envEx stateEx 5 rfl).1, ?_⟩
  have h := (c6_binder_delegation envEx stateEx 5 rfl).2.2.2.2.2.2.2
  exact h.trans (by decide)

theorem c8_witness :
    (bindDatabaseRef envEx stateNullRef).2.resolvedNullImmediately = true ∧
    (bindDatabaseRef envEx stateNullRef).2.binderInvoked = none :=
  ⟨(c8_null_reference_bind envEx stateNullRef rfl).1,
   (c8_null_reference_bind envEx stateNullRef rfl).2.1⟩

/-! More helper lemmas. -/

theorem bindDatabaseRef_record_promiseId (env : Env) (s : BindState) :
    (bindDatabaseRef env s).2.promiseId = s.nextPromiseId := by
  cases h : s.refArg.unrefArg <;> simp [bindDatabaseRef, h]

theorem setup_hydrated_eq (env : Env) (reference : RefArg) (lo : LocalOptions) :
    (setup env reference lo).hydrated = hydratedOf env reference lo := rfl

/-- Every binder call present after a bind was either already logged or
carries exactly the options of the state that made it. -/
theorem bindDatabaseRef_binderCalls_options (env : Env) (s : BindState) (c : BinderCall)
    (hc : c ∈ (bindDatabaseRef env s).1.binderCalls) :
    c ∈ s.binderCalls ∨ c.options = s.options := by
  cases h : s.refArg.unrefArg with
  | none =>
      simp [bindDatabaseRef, h] at hc
      exact Or.inl hc
  | some r =>
      simp [bindDatabaseRef, h, binderCallOf] at hc
      rcases hc with hc | hc
      · exact Or.inl hc
      · right
        rw [hc]

/-- C4: a reactive watcher exists exactly when the reference argument is a
ref. When it exists, every change of the reference runs bindDatabaseRef and
stores a freshly created promise in the promise ref, replacing the old one;
with a plain reference nothing reacts to changes, so at most one watcher is
ever created. -/
theorem c4_rebinding_watcher (env : Env) (reference : RefArg) (lo : LocalOptions) :
    (setup env reference lo).state.watcherInstalled = reference.isReactive ∧
    (setup env reference lo).state.nextPromiseId =
      (setup env reference lo).state.promiseId + 1 ∧
    (∀ s : BindState, ∀ v : Option Nat, s.watcherInstalled = true →
        refChange env s v =
          ((bindDatabaseRef env { s with refArg := RefArg.reactive v }).1,
           some (bindDatabaseRef env { s with refArg := RefArg.reactive v }).2) ∧
        (refChange env s v).1.promiseId = s.nextPromiseId ∧
        (refChange env s v).1.nextPromiseId = s.nextPromiseId + 1) ∧
    (∀ s : BindState, ∀ v : Option Nat, s.watcherInstalled = true →
        s.nextPromiseId = s.promiseId + 1 →
        (refChange env s v).1.promiseId ≠ s.promiseId) ∧
    (∀ s : BindState, ∀ v : Option Nat, s.watcherInstalled = false →
        refChange env s v = (s, none)) := by
  refine ⟨setup_state_watcher env reference lo, ?_, ?_, ?_, ?_⟩
  · have h8 := (bindDatabaseRef_frame env (initialBindState env reference lo)).2.2.2.2.2.2.2.1
    have h9 := (bindDatabaseRef_frame env (initialBindState env reference lo)).2.2.2.2.2.2.2.2
    rw [setup_state_eq]
    cases h : reference.unrefArg <;> simp [h, h8, h9]
  · intro s v hw
    have hf := bindDatabaseRef_frame env { s with refArg := RefArg.reactive v }
    refine ⟨by simp [refChange, hw], ?_, ?_⟩
    · simpa [refChange, hw] using hf.2.2.2.2.2.2.2.1
    · simpa [refChange, hw] using hf.2.2.2.2.2.2.2.2
  · intro s v hw hinv
    have hp : (refChange env s v).1.promiseId = s.nextPromiseId := by
      simpa [refChange, hw] using
        (bindDatabaseRef_frame env { s with refArg := RefArg.reactive v }).2.2.2.2.2.2.2.1
    rw [hp, hinv]
    omega
  · intro s v hw
    simp [refChange, hw]

theorem c4_witness :
    refChange envEx stateEx (some 9) =
      ((bindDatabaseRef envEx { stateEx with refArg := RefArg.reactive (some 9) }).1,
       some (bindDatabaseRef envEx { stateEx with refArg := RefArg.reactive (some 9) }).2) ∧
    (refChange envEx stateEx (some 9)).1.promiseId ≠ stateEx.promiseId :=
  ⟨((c4_rebinding_watcher envEx (RefArg.plain none) loEx).2.2.1 stateEx (some 9) rfl).1,
   (c4_rebinding_watcher envEx (RefArg.plain none) loEx).2.2.2.1 stateEx (some 9) rfl rfl⟩

/-- C7: only the first bind promise is registered with the pending promise
subsystem, and only when the initial unwrapped reference is non null;
neither rebinds nor settlements change the registration; onServerPrefetch is
registered exactly when the call runs inside a scope and a component
instance, and its callback awaits the promise currently stored in the
promise ref. -/
theorem c7_pending_promise_registration (env : Env) (reference : RefArg) (lo : LocalOptions) :
    (setup env reference lo).firstBind.promiseId = 0 ∧
    (setup env reference lo).state.pendingRemover =
      (match reference.unrefArg with
       | some r => some ((setup env reference lo).firstBind.promiseId, r)
       | none => none) ∧
    (∀ s : BindState, ∀ v : Option Nat,
        (refChange env s v).1.pendingRemover = s.pendingRemover) ∧
    (∀ s : BindState, ∀ pid : Nat, ∀ k : SettleKind,
        (settle s pid k).1.pendingRemover = s.pendingRemover) ∧
    (setup env reference lo).serverPrefetchRegistered = (env.hasScope && env.hasInstance) ∧
    (∀ s : BindState,
        serverPrefetchAwait (setup env reference lo).serverPrefetchRegistered s =
          if env.hasScope && env.hasInstance then some s.promiseId else none) := by
  have hrec := bindDatabaseRef_record_promiseId env (initialBindState env reference lo)
  have hp := (bindDatabaseRef_frame env (initialBindState env reference lo)).2.2.2.2.2.2.2.1
  have hr := (bindDatabaseRef_frame env (initialBindState env reference lo)).2.2.2.2.2.2.1
  refine ⟨hrec.trans rfl, ?_, ?_, ?_, rfl, ?_⟩
  · rw [setup_state_eq]
    cases h : reference.unrefArg with
    | none => exact hr.trans rfl
    | some r => exact congrArg (fun n => some (n, r)) (hp.trans hrec.symm)
  · intro s v
    cases hw : s.watcherInstalled
    · simp [refChange, hw]
    · simpa [refChange, hw] using
        (bindDatabaseRef_frame env { s with refArg := RefArg.reactive v }).2.2.2.2.2.2.1
  · intro s pid k
    cases k <;> simp [settle]
  · intro s
    rfl

/-- C10: during SSR the merged options carry once = true whatever the caller
passed; every binder call made by setup received those options; and any
later bind made from a state whose options carry once = true again passes
options with once = true to the binder. -/
theorem c10_ssr_forces_once (env : Env) (reference : RefArg) (lo : LocalOptions)
    (hssr : env.ssr = true) :
    (setup env reference lo).state.options.once = true ∧
    (∀ c ∈ (setup env reference lo).state.binderCalls, c.options.once = true) ∧
    (∀ s : BindState, ∀ v : Option Nat,
        s.options.once = true → (∀ c ∈ s.binderCalls, c.options.once = true) →
        (refChange env s v).1.options.once = true ∧
        (∀ c ∈ (refChange env s v).1.binderCalls, c.options.once = true)) := by
  have hopts : (setup env reference lo).state.options.once = true := by
    rw [setup_state_options]
    simp [mergedOptions, hssr]
  refine ⟨hopts, ?_, ?_⟩
  · intro c hc
    have hmem : c ∈ (bindDatabaseRef env (initialBindState env reference lo)).1.binderCalls := by
      revert hc
      rw [setup_state_eq]
      cases h : reference.unrefArg <;> simp [h]
    rcases bindDatabaseRef_binderCalls_options env (initialBindState env reference lo) c hmem with
      hin | hopt
    · simp [initialBindState] at hin
    · rw [hopt]
      show (mergedOptions env lo).once = true
      simp [mergedOptions, hssr]
  · intro s v hso hsc
    cases hw : s.watcherInstalled
    · rw [refChange]
      simp only [hw]
      exact ⟨hso, hsc⟩
    · constructor
      · have ho := (bindDatabaseRef_frame env { s with refArg := RefArg.reactive v }).2.1
        have : (refChange env s v).1.options = s.options := by
          simpa [refChange, hw] using ho
        rw [this]
        exact hso
      · intro c hc
        have hmem : c ∈ (bindDatabaseRef env { s with refArg := RefArg.reactive v }).1.binderCalls := by
          revert hc
          simp [refChange, hw]
        rcases bindDatabaseRef_binderCalls_options env
            { s with refArg := RefArg.reactive v } c hmem with hin | hopt
        · exact hsc c hin
        · rw [hopt]
          exact hso

theorem c10_witness :
    (setup envSSR (RefArg.plain (some 4)) loEx).state.options.once = true :=
  (c10_ssr_forces_once envSSR (RefArg.plain (some 4)) loEx rfl).1

/-- Caller options for the C9 counterexample: a caller supplied target whose
prior value is defined (null, not undefined). -/
def lo9 : LocalOptions :=
  { target := some { id := 1, priorValue := JSValue.null }
    once := none
    reset := none
    ssrKey := none }

/-- C9 counterexample: with a hydrated initial value (so shouldStartAsPending
is false) and a reactive reference that is null at first, the first bind
resolves to null without flipping shouldStartAsPending; the subsequent rebind
with a non null reference then assigns false to pending.value, not true as
the claim states for every subsequent non null rebind. -/
theorem c9_counterexample :
    (setup envEx (RefArg.reactive none) lo9).firstBind.resolvedNullImmediately = true ∧
    ((refChange envEx (setup envEx (RefArg.reactive none) lo9).state (some 3)).2).map
        BindRecord.pendingAssigned = some (some false) ∧
    (refChange envEx (setup envEx (RefArg.reactive none) lo9).state (some 3)).1.pending =
      false := by
  refine ⟨rfl, rfl, rfl⟩

/-- C9 amended: a bind with a non null reference assigns the current
shouldStartAsPending flag to pending.value and then forces the flag to true,
while a bind with a null reference leaves the flag untouched; the flag
starts as the absence of a hydrated initial value. Hence the very first
bind with a non null reference sets pending to true exactly when no
hydrated value existed, every non null bind that follows a non null bind
sets pending to true unconditionally, and a non null rebind preceded only
by null reference binds behaves like a first bind. -/
theorem c9_pending_on_rebind (env : Env) (reference : RefArg) (lo : LocalOptions) :
    (initialBindState env reference lo).shouldStartAsPending =
      decide ((setup env reference lo).hydrated = JSValue.undef) ∧
    (∀ r : Nat, reference.unrefArg = some r →
        (setup env reference lo).firstBind.pendingAssigned =
          some (decide ((setup env reference lo).hydrated = JSValue.undef)) ∧
        (setup env reference lo).state.shouldStartAsPending = true) ∧
    (reference.unrefArg = none →
        (setup env reference lo).firstBind.pendingAssigned = none ∧
        (setup env reference lo).state.shouldStartAsPending =
          decide ((setup env reference lo).hydrated = JSValue.undef)) ∧
    (∀ s : BindState, ∀ r : Nat, s.refArg.unrefArg = some r →
        (bindDatabaseRef env s).2.pendingAssigned = some s.shouldStartAsPending ∧
        (bindDatabaseRef env s).1.pending = s.shouldStartAsPending ∧
        (bindDatabaseRef env s).1.shouldStartAsPending = true) ∧
    (∀ s : BindState, s.refArg.unrefArg = none →
        (bindDatabaseRef env s).1.shouldStartAsPending = s.shouldStartAsPending ∧
        (bindDatabaseRef env s).1.pending = s.pending) := by
  refine ⟨rfl, ?_, ?_, ?_, ?_⟩
  · intro r h
    constructor
    · show (bindDatabaseRef env (initialBindState env reference lo)).2.pendingAssigned = _
      simp [bindDatabaseRef, initialBindState, h, setup_hydrated_eq]
    · rw [setup_state_eq]
      simp [h, bindDatabaseRef, initialBindState, binderCallOf]
  · intro h
    constructor
    · show (bindDatabaseRef env (initialBindState env reference lo)).2.pendingAssigned = _
      simp [bindDatabaseRef, initialBindState, h]
    · rw [setup_state_eq]
      simp [h, bindDatabaseRef, initialBindState, setup_hydrated_eq]
  · intro s r h
    simp [bindDatabaseRef, h]
  · intro s h
    simp [bindDatabaseRef, h]

theorem c9_witness :
    (bindDatabaseRef envEx stateEx).2.pendingAssigned = some true ∧
    (setup envEx (RefArg.plain (some 4)) loEx).firstBind.pendingAssigned = some true := by
  constructor
  · exact ((c9_pending_on_rebind envEx (RefArg.plain (some 4)) loEx).2.2.2.1
      stateEx 5 rfl).1.trans rfl
  · exact (((c9_pending_on_rebind envEx (RefArg.plain (some 4)) loEx).2.1 4 rfl).1).trans
      (by decide)

end VuefireDB
